import Mathlib

/-!
Shallow embedding of the Okta Terraform provider data sources
(`okta/data_source_okta_app_oauth.go`, `okta/data_source_okta_users.go`)
and proofs of the specification claims about them.
-/

namespace OktaProvider

/-- Lexicographic order on character lists by code point.  For valid
UTF-8 encoded strings, byte-wise lexicographic comparison (Go's `<` on
`string`) coincides with code-point lexicographic comparison. -/
def charListLt : List Char → List Char → Bool
  | [], [] => false
  | [], _ :: _ => true
  | _ :: _, [] => false
  | a :: as, b :: bs =>
    if a.toNat < b.toNat then true
    else if b.toNat < a.toNat then false
    else charListLt as bs

/-- Go's `a > b` on strings: byte-wise lexicographic greater-than. -/
def goStringGreater (a b : String) : Bool :=
  charListLt b.data a.data

/-- `clientSecretItem` from `data_source_okta_app_oauth.go`. -/
structure ClientSecretItem where
  status : String
  id : String
  clientSecret : String
  lastUpdated : String
deriving Repr, DecidableEq

/-- The credential-secret disambiguation of
`dataSourceAppOauthRead` (lines 218-231): "There can be only two client
secrets. Choose the latest created one that is active."  Mirrors the
Go branch structure: index 0 and index 1 of the list are inspected,
guarded by the `len(secretList) > 0` / `len(secretList) > 1` checks. -/
def chooseClientSecret (secretList : List ClientSecretItem) : String :=
  match secretList with
  | [] => ""
  | s0 :: rest =>
    match rest with
    | [] =>
      if s0.status == "ACTIVE" then s0.clientSecret else ""
    | s1 :: _ =>
      if s0.status == "ACTIVE" && s1.status == "ACTIVE" then
        if goStringGreater s1.lastUpdated s0.lastUpdated then
          s1.clientSecret
        else
          s0.clientSecret
      else if s0.status == "ACTIVE" then s0.clientSecret
      else if s1.status == "ACTIVE" then s1.clientSecret
      else ""

/-- Structured JSON values, standing for the dynamic value behind
`app.Links` (an `interface{}` in the Go SDK). -/
inductive Json where
  | null
  | bool (b : Bool)
  | num (n : Int)
  | str (s : String)
  | arr (elems : List Json)
  | obj (fields : List (String × Json))

mutual

/-- Canonical JSON text serialization, standing for Go's `json.Marshal`. -/
def Json.render : Json → String
  | .null => "null"
  | .bool b => cond b "true" "false"
  | .num n => toString n
  | .str s => "\"" ++ s ++ "\""
  | .arr elems => "[" ++ Json.renderArr elems ++ "]"
  | .obj fields => "\x7b" ++ Json.renderObj fields ++ "\x7d"

/-- Comma-separated rendering of a JSON array body. -/
def Json.renderArr : List Json → String
  | [] => ""
  | [x] => Json.render x
  | x :: y :: rest => Json.render x ++ "," ++ Json.renderArr (y :: rest)

/-- Comma-separated rendering of a JSON object body. -/
def Json.renderObj : List (String × Json) → String
  | [] => ""
  | [kv] => "\"" ++ kv.1 ++ "\":" ++ Json.render kv.2
  | kv :: kv2 :: rest =>
      "\"" ++ kv.1 ++ "\":" ++ Json.render kv.2 ++ "," ++ Json.renderObj (kv2 :: rest)

end

/-- `*okta.ApplicationSettingsOAuthIdpInitiatedLogin`: the
`IdpInitiatedLogin` sub-structure of the OAuth client settings. -/
structure IdpInitiatedLogin where
  mode : String
  defaultScope : List String
deriving Repr, DecidableEq

/-- The fields of `*okta.OpenIdConnectApplicationSettingsClient` read by
`dataSourceAppOauthRead`. -/
structure OauthClientSettings where
  applicationType : String
  clientUri : String
  logoUri : String
  initiateLoginUri : String
  policyUri : String
  wildcardRedirect : String
  responseTypes : List String
  grantTypes : List String
  redirectUris : List String
  postLogoutRedirectUris : List String
  idpInitiatedLogin : Option IdpInitiatedLogin
deriving Repr, DecidableEq

/-- The fields of `app.Credentials.OauthClient` read by
`dataSourceAppOauthRead`. -/
structure OauthClientCredentials where
  clientId : String
  clientSecret : String
deriving Repr, DecidableEq

/-- The fields of `*okta.OpenIdConnectApplication` read by
`dataSourceAppOauthRead`. -/
structure Application where
  id : String
  label : String
  name : String
  status : String
  autoSubmitToolbar : Bool
  hideIOS : Bool
  hideWeb : Bool
  settingsOauthClient : Option OauthClientSettings
  credentialsOauthClient : OauthClientCredentials
  links : Json

/-- `convertStringSliceToSet`: a Terraform `schema.TypeSet` of strings
is an order-irrelevant, duplicate-free set. -/
def convertStringSliceToSet (l : List String) : Finset String :=
  l.toFinset

/-- The flat state written by `dataSourceAppOauthRead` via `d.Set`
(lines 234-283).  Fields that are only written inside the
`app.Settings.OauthClient != nil` (resp. `IdpInitiatedLogin != nil`)
branch are `Option`s: `none` means the corresponding `d.Set` call never
ran. -/
structure AppOauthOutput where
  id : String
  label : String
  name : String
  status : String
  autoSubmitToolbar : Bool
  hideIOS : Bool
  hideWeb : Bool
  type : Option String
  clientUri : Option String
  logoUri : Option String
  loginUri : Option String
  clientId : Option String
  clientSecret : Option String
  policyUri : Option String
  wildcardRedirect : Option String
  loginMode : Option String
  loginScopes : Option (Finset String)
  redirectUris : Finset String
  responseTypes : Finset String
  grantTypes : Finset String
  postLogoutRedirectUris : Finset String
  links : String

/-- Lines 234-283 of `dataSourceAppOauthRead`: flattening of the fetched
application into the output state.  Note line 253: `client_secret` is set
from `app.Credentials.OauthClient.ClientSecret`, inside the
`app.Settings.OauthClient != nil` branch. -/
def flattenAppOauth (app : Application) : AppOauthOutput :=
  let respTypes : List String :=
    match app.settingsOauthClient with
    | some oc => oc.responseTypes
    | none => []
  let grantTypes : List String :=
    match app.settingsOauthClient with
    | some oc => oc.grantTypes
    | none => []
  let redirectUris : List String :=
    match app.settingsOauthClient with
    | some oc => oc.redirectUris
    | none => []
  let postLogoutRedirectUris : List String :=
    match app.settingsOauthClient with
    | some oc => oc.postLogoutRedirectUris
    | none => []
  { id := app.id
    label := app.label
    name := app.name
    status := app.status
    autoSubmitToolbar := app.autoSubmitToolbar
    hideIOS := app.hideIOS
    hideWeb := app.hideWeb
    type := app.settingsOauthClient.map fun oc => oc.applicationType
    clientUri := app.settingsOauthClient.map fun oc => oc.clientUri
    logoUri := app.settingsOauthClient.map fun oc => oc.logoUri
    loginUri := app.settingsOauthClient.map fun oc => oc.initiateLoginUri
    clientId := app.settingsOauthClient.map fun _ => app.credentialsOauthClient.clientId
    clientSecret := app.settingsOauthClient.map fun _ => app.credentialsOauthClient.clientSecret
    policyUri := app.settingsOauthClient.map fun oc => oc.policyUri
    wildcardRedirect := app.settingsOauthClient.map fun oc => oc.wildcardRedirect
    loginMode :=
      match app.settingsOauthClient with
      | some oc => oc.idpInitiatedLogin.map fun idp => idp.mode
      | none => none
    loginScopes :=
      match app.settingsOauthClient with
      | some oc => oc.idpInitiatedLogin.map fun idp => convertStringSliceToSet idp.defaultScope
      | none => none
    redirectUris := convertStringSliceToSet redirectUris
    responseTypes := convertStringSliceToSet respTypes
    grantTypes := convertStringSliceToSet grantTypes
    postLogoutRedirectUris := convertStringSliceToSet postLogoutRedirectUris
    links := Json.render app.links }

/-- Lines 205-284 of `dataSourceAppOauthRead`, after the application has
been selected: fetch the client-secret list (a failed fetch aborts the
read), run the disambiguation of lines 218-231 into the local variable
`clientSecret`, then flatten.  As in the source, the computed
`clientSecret` is not consumed by any `d.Set` call. -/
def dataSourceAppOauthReadTail (app : Application)
    (secretFetch : Except String (List ClientSecretItem)) :
    Except String AppOauthOutput :=
  match secretFetch with
  | .error e => .error ("failed to list OAuth client secrets: " ++ e)
  | .ok secretList =>
      let _clientSecret := chooseClientSecret secretList
      .ok (flattenAppOauth app)

/-- Lines 192-199 of `dataSourceAppOauthRead`: selection of the
application from the server-returned list on the label / label-prefix
path.  `label` is `filters.Label` (empty when the lookup was by
`label_prefix`). -/
def selectFirstApp (label : String) (appList : List Application) :
    Except String Application :=
  match appList with
  | [] => .error "no OAuth application found with provided filter"
  | first :: _ =>
      if label != "" && first.label != label then
        .error ("no OAuth application found with the provided label: " ++ label)
      else
        .ok first

/-- A user record as returned by the Okta API (`*okta.User`); only the
identity matters for the pagination claims. -/
structure OktaUser where
  id : String
deriving Repr, DecidableEq

/-- A page fetch against the server: either the decoded records of the
page, or a transport/decoding error.  The first element stands for the
initial `client.User.ListUsers` call, later elements for the successive
`resp.Next` calls; the list being exhausted is `resp.HasNextPage()`
turning false. -/
abbrev PageFetch := Except String (List OktaUser)

/-- The cursor-following loop of `collectUsers` (lines 142-151 of
`data_source_okta_users.go`): while a next page exists, fetch it; a
failed fetch returns that error (discarding `users`); otherwise append
the page's records in order. -/
def collectUsersLoop : List PageFetch → List OktaUser → Except String (List OktaUser)
  | [], users => .ok users
  | fetch :: rest, users =>
      match fetch with
      | .error e => .error e
      | .ok nextUsers => collectUsersLoop rest (users ++ nextUsers)

/-- `collectUsers` (lines 137-153): the initial `ListUsers` fetch, then
the cursor-following loop. -/
def collectUsers (firstFetch : PageFetch) (nextFetches : List PageFetch) :
    Except String (List OktaUser) :=
  match firstFetch with
  | .error e => .error e
  | .ok users => collectUsersLoop nextFetches users

/-- UTF-8 encoding of a code point, as a list of byte values. -/
def charUtf8 (c : Char) : List Nat :=
  let n := c.toNat
  if n < 0x80 then [n]
  else if n < 0x800 then
    [0xC0 ||| (n >>> 6), 0x80 ||| (n &&& 0x3F)]
  else if n < 0x10000 then
    [0xE0 ||| (n >>> 12), 0x80 ||| ((n >>> 6) &&& 0x3F), 0x80 ||| (n &&& 0x3F)]
  else
    [0xF0 ||| (n >>> 18), 0x80 ||| ((n >>> 12) &&& 0x3F),
     0x80 ||| ((n >>> 6) &&& 0x3F), 0x80 ||| (n &&& 0x3F)]

/-- The UTF-8 bytes of a string (Go's `[]byte(s)`). -/
def utf8Bytes (s : String) : List Nat :=
  (s.data.map charUtf8).flatten

/-- One bit step of CRC-32 with the reflected IEEE polynomial. -/
def crc32Step (c : Nat) : Nat :=
  if c % 2 == 1 then (c / 2) ^^^ 0xEDB88320 else c / 2

/-- Fold one byte into a CRC-32 accumulator (eight bit steps). -/
def crc32Byte (crc b : Nat) : Nat :=
  crc32Step (crc32Step (crc32Step (crc32Step
    (crc32Step (crc32Step (crc32Step (crc32Step (crc ^^^ b))))))))

/-- `crc32.ChecksumIEEE`: CRC-32, reflected IEEE polynomial, initial
value and final complement `0xFFFFFFFF`. -/
def checksumIEEE (bytes : List Nat) : Nat :=
  (bytes.foldl crc32Byte 0xFFFFFFFF) ^^^ 0xFFFFFFFF

/-- Line 100 of `dataSourceUsersRead`:
`fmt.Sprintf("%d", crc32.ChecksumIEEE([]byte(params.String())))` — the
synthetic identifier is the decimal rendering of the IEEE CRC-32
checksum of the canonical query string. -/
def usersSyntheticId (queryString : String) : String :=
  toString (checksumIEEE (utf8Bytes queryString))

/-- Go's `strconv.Atoi`: an optional sign followed by at least one
decimal digit and nothing else, rejecting values outside the 64-bit
signed range (on such input `Atoi` reports `ErrRange`, a non-nil
error). -/
def goAtoi (s : String) : Option Int :=
  let signAndDigits : Int × List Char :=
    match s.data with
    | '+' :: rest => (1, rest)
    | '-' :: rest => (-1, rest)
    | cs => (1, cs)
  let sign := signAndDigits.1
  let ds := signAndDigits.2
  if ds.isEmpty then none
  else if ds.all (fun c => '0' ≤ c && c ≤ '9') then
    let mag : Nat := ds.foldl (fun acc c => acc * 10 + (c.toNat - '0'.toNat)) 0
    let n : Int := sign * (mag : Int)
    if -(2 ^ 63) ≤ n ∧ n ≤ 2 ^ 63 - 1 then some n else none
  else none

/-- What the `delay_read_seconds` block (lines 77-85 of
`dataSourceUsersRead`) does before any request is issued. -/
inductive DelayAction where
  | noDelay
  | slept (seconds : Int)
  | warned (value : String)
deriving Repr, DecidableEq

/-- Lines 77-85 of `dataSourceUsersRead`: if `delay_read_seconds` is
present, `strconv.Atoi` it; on success sleep that many seconds, on
failure log a warning.  `none` models the attribute being absent (or
empty, which `GetOk` reports as absent).  The block never produces an
error. -/
def delayReadStep (delayValue : Option String) : DelayAction :=
  match delayValue with
  | none => .noDelay
  | some v =>
      match goAtoi v with
      | some delay => .slept delay
      | none => .warned v

/-- The canonical query produced by the selector resolution of
`dataSourceUsersRead` (lines 95-104). -/
inductive UsersQuery where
  | byGroup (groupId : String)
  | bySearch (queryString : String)
deriving Repr, DecidableEq

/-- Lines 95-104 of `dataSourceUsersRead`: resolve the mutually
exclusive selectors into the resource id and the query to run,
before any request is issued.  `none` models an absent (or empty,
per `GetOk`) attribute; `searchQueryString` is `params.String()` for
the `query.Params` built from the search set.  Returns the
configuration error of line 103 when neither selector is present. -/
def resolveUsersRead (groupId : Option String) (searchQueryString : Option String) :
    Except String (String × UsersQuery) :=
  match groupId with
  | some g => .ok (g, .byGroup g)
  | none =>
      match searchQueryString with
      | some qs => .ok (usersSyntheticId qs, .bySearch qs)
      | none => .error "must specify either group_id or search attributes"

/-- The prefix of `dataSourceUsersRead` relevant to the claims: the
delay block runs first and unconditionally, then the selectors are
resolved; the selector outcome does not depend on the delay value. -/
def dataSourceUsersReadStart (delayValue : Option String)
    (groupId : Option String) (searchQueryString : Option String) :
    DelayAction × Except String (String × UsersQuery) :=
  (delayReadStep delayValue, resolveUsersRead groupId searchQueryString)

/-- Sample OAuth client settings, used to instantiate theorems on
concrete inputs. -/
def sampleOauthSettings : OauthClientSettings :=
  { applicationType := "web"
    clientUri := "https://example.com"
    logoUri := "https://example.com/logo.png"
    initiateLoginUri := "https://example.com/login"
    policyUri := "https://example.com/policy"
    wildcardRedirect := "DISABLED"
    responseTypes := ["code"]
    grantTypes := ["authorization_code"]
    redirectUris := ["https://example.com/cb"]
    postLogoutRedirectUris := []
    idpInitiatedLogin := none }

/-- A sample application carrying OAuth client settings and an embedded
credentials secret. -/
def appWithClient : Application :=
  { id := "0oa1gjh63g214q0Hq0g4"
    label := "example-app"
    name := "oidc_client"
    status := "ACTIVE"
    autoSubmitToolbar := false
    hideIOS := true
    hideWeb := true
    settingsOauthClient := some sampleOauthSettings
    credentialsOauthClient := { clientId := "client-1", clientSecret := "embedded-secret" }
    links := Json.obj [("self", Json.str "https://example.okta.com/api/v1/apps/0oa1gjh63g214q0Hq0g4")] }

/-- The same sample application with the OAuth client settings entirely
absent. -/
def appNoClient : Application :=
  { appWithClient with settingsOauthClient := none }

/-- `charListLt` is irreflexive. -/
theorem charListLt_irrefl : ∀ x : List Char, charListLt x x = false := by
  intro x
  induction x with
  | nil => rfl
  | cons a as ih => simp [charListLt, ih]

/-- `charListLt` is asymmetric. -/
theorem charListLt_asymm : ∀ x y : List Char, charListLt x y = true → charListLt y x = false := by
  intro x
  induction x with
  | nil =>
    intro y _
    cases y <;> rfl
  | cons a as ih =>
    intro y h
    cases y with
    | nil => simp [charListLt] at h
    | cons b bs =>
      rcases Nat.lt_trichotomy a.toNat b.toNat with hab | hab | hab
      · simp [charListLt, hab, Nat.lt_asymm hab]
      · have h' : charListLt as bs = true := by
          simpa [charListLt, hab] using h
        simp [charListLt, hab, ih bs h']
      · simp [charListLt, hab, Nat.lt_asymm hab] at h

/-- Cursor loop over all-successful pages appends every page in order. -/
theorem collectUsersLoop_ok (pages : List (List OktaUser)) :
    ∀ acc : List OktaUser,
      collectUsersLoop (pages.map Except.ok) acc = .ok (acc ++ pages.flatten) := by
  induction pages with
  | nil => intro acc; simp [collectUsersLoop]
  | cons p ps ih => intro acc; simp [collectUsersLoop, ih, List.append_assoc]

/-- Cursor loop hitting a failed page fetch returns that error,
whatever was accumulated before. -/
theorem collectUsersLoop_error (okPages : List (List OktaUser)) (e : String)
    (rest : List PageFetch) :
    ∀ acc : List OktaUser,
      collectUsersLoop (okPages.map Except.ok ++ .error e :: rest) acc = .error e := by
  induction okPages with
  | nil => intro acc; simp [collectUsersLoop]
  | cons p ps ih => intro acc; simp [collectUsersLoop, ih]

/-- C2: for every secret list of two entries both with status ACTIVE and
lastUpdated timestamps ordered by string comparison, the disambiguation
selects the secret with the greater timestamp (whichever position it
occupies); and when exactly one of the two entries is ACTIVE, that
entry's secret is selected. -/
theorem C2_secret_disambiguation (a b : ClientSecretItem) :
    (a.status = "ACTIVE" → b.status = "ACTIVE" →
      (goStringGreater b.lastUpdated a.lastUpdated = true →
        chooseClientSecret [a, b] = b.clientSecret) ∧
      (goStringGreater a.lastUpdated b.lastUpdated = true →
        chooseClientSecret [a, b] = a.clientSecret)) ∧
    (a.status = "ACTIVE" → b.status ≠ "ACTIVE" →
      chooseClientSecret [a, b] = a.clientSecret) ∧
    (a.status ≠ "ACTIVE" → b.status = "ACTIVE" →
      chooseClientSecret [a, b] = b.clientSecret) := by
  refine ⟨fun ha hb => ⟨fun hgt => ?_, fun hgt => ?_⟩,
    fun ha hb => ?_, fun ha hb => ?_⟩
  · simp [chooseClientSecret, ha, hb, hgt]
  · have hf : goStringGreater b.lastUpdated a.lastUpdated = false :=
      charListLt_asymm _ _ hgt
    simp [chooseClientSecret, ha, hb, hf]
  · simp [chooseClientSecret, ha, hb]
  · simp [chooseClientSecret, ha, hb]

/-- C2 witness: two ACTIVE secrets; the one whose timestamp is greater
is selected. -/
theorem C2_secret_disambiguation_witness :
    chooseClientSecret
      [⟨"ACTIVE", "sid0", "secret-old", "2020-01-01T00:00:00.000Z"⟩,
       ⟨"ACTIVE", "sid1", "secret-new", "2021-06-15T00:00:00.000Z"⟩] = "secret-new" :=
  ((C2_secret_disambiguation _ _).1 rfl rfl).1 (by decide)

/-- C10: with two ACTIVE entries carrying equal lastUpdated timestamps
the disambiguation selects the first entry's secret (the comparison is
strict greater-than, ties go to index 0); and only the first two
entries of the secret list are ever inspected: the result on any list
equals the result on its first two entries, so an ACTIVE entry at
position three or later is never selected. -/
theorem C10_secret_tie_and_first_two :
    (∀ a b : ClientSecretItem, a.status = "ACTIVE" → b.status = "ACTIVE" →
      a.lastUpdated = b.lastUpdated → chooseClientSecret [a, b] = a.clientSecret) ∧
    (∀ l : List ClientSecretItem, chooseClientSecret l = chooseClientSecret (l.take 2)) := by
  constructor
  · intro a b ha hb heq
    have hf : goStringGreater b.lastUpdated a.lastUpdated = false := by
      simpa [goStringGreater, heq] using charListLt_irrefl b.lastUpdated.data
    simp [chooseClientSecret, ha, hb, hf]
  · intro l
    match l with
    | [] => rfl
    | [_] => rfl
    | _ :: _ :: _ => rfl

/-- C10 witness: a tie between two ACTIVE secrets selects the first,
and a third, ACTIVE entry behind two inactive ones is never selected
(the result matches the two-entry truncation, which surfaces no
secret). -/
theorem C10_secret_tie_and_first_two_witness :
    chooseClientSecret
      [⟨"ACTIVE", "sid0", "secret-a", "2021-06-15T00:00:00.000Z"⟩,
       ⟨"ACTIVE", "sid1", "secret-b", "2021-06-15T00:00:00.000Z"⟩] = "secret-a" ∧
    chooseClientSecret
      [⟨"EXPIRED", "sid0", "secret-a", "2020-01-01T00:00:00.000Z"⟩,
       ⟨"EXPIRED", "sid1", "secret-b", "2020-02-01T00:00:00.000Z"⟩,
       ⟨"ACTIVE", "sid2", "secret-c", "2020-03-01T00:00:00.000Z"⟩] =
      chooseClientSecret
        [⟨"EXPIRED", "sid0", "secret-a", "2020-01-01T00:00:00.000Z"⟩,
         ⟨"EXPIRED", "sid1", "secret-b", "2020-02-01T00:00:00.000Z"⟩] :=
  ⟨C10_secret_tie_and_first_two.1 _ _ rfl rfl rfl,
   C10_secret_tie_and_first_two.2 _⟩

/-- C3: on the label lookup path, when the requested exact label is
non-empty and the first server-returned application's label differs
from it, the read fails with a not-found error; when the first
application's label matches exactly, that application is selected. -/
theorem C3_exact_label_reverification (label : String) (first : Application)
    (rest : List Application) (hlabel : label ≠ "") :
    (first.label ≠ label →
      selectFirstApp label (first :: rest) =
        .error ("no OAuth application found with the provided label: " ++ label)) ∧
    (first.label = label →
      selectFirstApp label (first :: rest) = .ok first) := by
  constructor
  · intro hne
    simp [selectFirstApp, hlabel, hne]
  · intro heq
    simp [selectFirstApp, heq]

/-- C3 witness: a server result whose first entity's label differs from
the requested one fails, and a matching first entity is selected. -/
theorem C3_exact_label_reverification_witness :
    selectFirstApp "example-app-2" [appWithClient] =
      .error ("no OAuth application found with the provided label: " ++ "example-app-2") ∧
    selectFirstApp "example-app" [appWithClient] = .ok appWithClient :=
  ⟨(C3_exact_label_reverification "example-app-2" appWithClient [] (by decide)).1
      (by simp [appWithClient]),
   (C3_exact_label_reverification "example-app" appWithClient [] (by decide)).2 rfl⟩

/-- C4: when every page fetch succeeds, `collectUsers` returns all
records of all pages, in page order and within-page order, with none
dropped, duplicated, or reordered: the result is exactly the
concatenation of the pages. -/
theorem C4_collect_users_exhaustive (firstPage : List OktaUser)
    (pages : List (List OktaUser)) :
    collectUsers (.ok firstPage) (pages.map Except.ok) =
      .ok (firstPage ++ pages.flatten) := by
  simp [collectUsers, collectUsersLoop_ok]

/-- C5: when a page fetch fails — the initial fetch, or any later page
after a prefix of successful pages — `collectUsers` returns that first
encountered error and no records at all: earlier accumulated pages are
discarded. -/
theorem C5_collect_users_fail_fast (e : String) (firstPage : List OktaUser)
    (okPages : List (List OktaUser)) (rest : List PageFetch) :
    collectUsers (.error e) rest = .error e ∧
    collectUsers (.ok firstPage) (okPages.map Except.ok ++ .error e :: rest) =
      .error e := by
  constructor
  · rfl
  · simp [collectUsers, collectUsersLoop_error]

/-- C6: the synthetic identifier of the users search read is a
deterministic checksum of the canonical query string: two invocations
whose resolved parameters produce the same canonical query string
produce the same identifier, and the resolved read outcome coincides. -/
theorem C6_synthetic_id_deterministic (qs1 qs2 : String) (h : qs1 = qs2) :
    usersSyntheticId qs1 = usersSyntheticId qs2 ∧
    resolveUsersRead none (some qs1) = resolveUsersRead none (some qs2) := by
  subst h
  exact ⟨rfl, rfl⟩

/-- C6 witness: a concrete canonical query string yields the same
synthetic identifier across two invocations. -/
theorem C6_synthetic_id_deterministic_witness :
    usersSyntheticId "search=profile.department eq \"Engineering\"&limit=200&sortOrder=0" =
      usersSyntheticId "search=profile.department eq \"Engineering\"&limit=200&sortOrder=0" :=
  (C6_synthetic_id_deterministic _ _ rfl).1

/-- C7: a present but non-integer `delay_read_seconds` value only logs
a warning — the delay is skipped and the read proceeds, its selector
resolution unaffected; a valid integer value makes the read sleep that
many seconds before any request is issued. -/
theorem C7_delay_read (v : String) (groupId searchQs : Option String) :
    (goAtoi v = none →
      (dataSourceUsersReadStart (some v) groupId searchQs).1 = .warned v) ∧
    (∀ n : Int, goAtoi v = some n →
      (dataSourceUsersReadStart (some v) groupId searchQs).1 = .slept n) ∧
    (dataSourceUsersReadStart (some v) groupId searchQs).2 =
      resolveUsersRead groupId searchQs := by
  refine ⟨fun hnone => ?_, fun n hsome => ?_, rfl⟩
  · simp [dataSourceUsersReadStart, delayReadStep, hnone]
  · simp [dataSourceUsersReadStart, delayReadStep, hsome]

/-- C7 witness: a non-numeric delay value is only warned about while a
numeric one sleeps for that many seconds. -/
theorem C7_delay_read_witness :
    (dataSourceUsersReadStart (some "not-a-number") (some "00g1") none).1 =
      .warned "not-a-number" ∧
    (dataSourceUsersReadStart (some "7") (some "00g1") none).1 = .slept 7 :=
  ⟨(C7_delay_read "not-a-number" (some "00g1") none).1 (by decide),
   (C7_delay_read "7" (some "00g1") none).2.1 7 (by decide)⟩

/-- C8: with neither the group_id selector nor the search selector
supplied, the users read fails with a configuration error before any
request is issued; with exactly one selector supplied, exactly one
canonical query form is produced — by-group for group_id, by-search
(keyed by the checksum identifier) for search. -/
theorem C8_selector_resolution :
    resolveUsersRead none none =
      .error "must specify either group_id or search attributes" ∧
    (∀ g : String, resolveUsersRead (some g) none = .ok (g, .byGroup g)) ∧
    (∀ qs : String,
      resolveUsersRead none (some qs) = .ok (usersSyntheticId qs, .bySearch qs)) :=
  ⟨rfl, fun _ => rfl, fun _ => rfl⟩

/-- C9: for an application whose nested OAuth-client settings structure
is entirely absent, the read-and-flatten succeeds (no error), the
dependent scalar fields are skipped, the repeated-value fields become
empty sets; and for every application the links metadata is emitted as
a single serialized JSON string. -/
theorem C9_flatten_absent_nested (app : Application)
    (h : app.settingsOauthClient = none) :
    (∀ secretList : List ClientSecretItem,
      dataSourceAppOauthReadTail app (.ok secretList) = .ok (flattenAppOauth app)) ∧
    (flattenAppOauth app).redirectUris = ∅ ∧
    (flattenAppOauth app).responseTypes = ∅ ∧
    (flattenAppOauth app).grantTypes = ∅ ∧
    (flattenAppOauth app).postLogoutRedirectUris = ∅ ∧
    (flattenAppOauth app).type = none ∧
    (flattenAppOauth app).clientId = none ∧
    (flattenAppOauth app).clientSecret = none ∧
    (flattenAppOauth app).loginMode = none ∧
    (flattenAppOauth app).loginScopes = none ∧
    (∀ a : Application, (flattenAppOauth a).links = Json.render a.links) := by
  refine ⟨fun secretList => rfl, ?_, ?_, ?_, ?_, ?_, ?_, ?_, ?_, ?_, fun a => rfl⟩
  all_goals simp [flattenAppOauth, convertStringSliceToSet, h]

/-- C9 witness: the sample application without OAuth client settings
flattens without error, with empty sets and skipped dependent fields. -/
theorem C9_flatten_absent_nested_witness :
    dataSourceAppOauthReadTail appNoClient (.ok []) = .ok (flattenAppOauth appNoClient) ∧
    (flattenAppOauth appNoClient).redirectUris = ∅ ∧
    (flattenAppOauth appNoClient).clientSecret = none ∧
    (flattenAppOauth appNoClient).links = Json.render appNoClient.links :=
  ⟨(C9_flatten_absent_nested appNoClient rfl).1 [],
   (C9_flatten_absent_nested appNoClient rfl).2.1,
   (C9_flatten_absent_nested appNoClient rfl).2.2.2.2.2.2.1,
   (C9_flatten_absent_nested appNoClient rfl).2.2.2.2.2.2.2.2.2.2 appNoClient⟩

/-- C1: the disambiguated secret is computed but never surfaced.  On a
secret list with no ACTIVE entry the disambiguation yields the empty
string and the read succeeds, yet the `client_secret` surfaced by the
flattened output is the application credentials' embedded secret
(line 253 sets it from `app.Credentials.OauthClient.ClientSecret`),
which here is non-empty — contradicting the claim that the surfaced
value is the disambiguation result. -/
theorem C1_surfaced_secret_divergence :
    chooseClientSecret
      [⟨"EXPIRED", "sid0", "stale-secret", "2020-01-01T00:00:00.000Z"⟩] = "" ∧
    dataSourceAppOauthReadTail appWithClient
      (.ok [⟨"EXPIRED", "sid0", "stale-secret", "2020-01-01T00:00:00.000Z"⟩]) =
      .ok (flattenAppOauth appWithClient) ∧
    (flattenAppOauth appWithClient).clientSecret = some "embedded-secret" ∧
    "embedded-secret" ≠ "" :=
  ⟨rfl, rfl, rfl, by decide⟩
